import Mathlib

/-!
A verification development for the cw-cyber-airdrop core
(`contracts/cw-cyber-airdrop/src/helpers.rs`): merkle proof validation,
Ethereum-style signature verification, and the pool-depletion coefficient
update.

Modelling conventions:
* Bytes are `Nat` values below 256; byte strings are `List Nat`.
* The SHA-256 and Keccak-256 hash functions come from external crates
  (`sha2`, `sha3`); no claim depends on their internals, so they are
  passed as explicit function parameters `H` / `K` of type
  `List Nat → List Nat` (always returning 32 bytes in the real code).
* The host crypto API (`deps.api.secp256k1_recover_pubkey`,
  `deps.api.secp256k1_verify`) is an environment-provided interface,
  modelled by the `Api` structure of abstract functions.
* `Uint128` arithmetic is `Nat` with an explicit bound `2 ^ 128`; the
  cosmwasm `Uint128` operators `+ - * /` abort the execution (a Rust
  panic) on overflow, underflow, or division by zero, which the model
  records as a distinct `panicked` outcome, separate from the returned
  error channel of `StdResult`.
-/

/-- Bytes of an ASCII string: each character as its code point. All
strings handled by the core (bech32 addresses, decimal amounts, hex
digests, JSON claim text) are ASCII, where UTF-8 encodes each character
as its own code point. -/
def strBytes (s : String) : List Nat :=
  s.data.map Char.toNat

/-- Decimal digits of a natural number, accumulator and fuel based
(the fuel `n + 1` always suffices). Models the `Display` rendering of a
`Uint128` amount. -/
def natDecimalAux : Nat → Nat → List Char → List Char
  | 0, _, acc => acc
  | fuel + 1, n, acc =>
    let d := Char.ofNat (48 + n % 10)
    if n < 10 then d :: acc else natDecimalAux fuel (n / 10) (d :: acc)

/-- Decimal rendering of a natural number, e.g. `natDecimal 100 = "100"`. -/
def natDecimal (n : Nat) : String :=
  ⟨natDecimalAux (n + 1) n []⟩

/-- Value of one hex digit, accepting both cases as the `hex` crate does. -/
def hexVal (c : Char) : Option Nat :=
  if '0' ≤ c ∧ c ≤ '9' then some (c.toNat - '0'.toNat)
  else if 'a' ≤ c ∧ c ≤ 'f' then some (c.toNat - 'a'.toNat + 10)
  else if 'A' ≤ c ∧ c ≤ 'F' then some (c.toNat - 'A'.toNat + 10)
  else none

/-- Decode a hex character sequence to bytes, two digits per byte;
`none` on an odd length or a non-hex character. -/
def decodeHexBytes : List Char → Option (List Nat)
  | [] => some []
  | [_] => none
  | hi :: lo :: rest =>
    match hexVal hi, hexVal lo, decodeHexBytes rest with
    | some h, some l, some bs => some ((h * 16 + l) :: bs)
    | _, _, _ => none

/-- `hex::decode_to_slice(s, &mut [0u8; 32])`: succeeds exactly on a
64-character hex string, yielding its 32 bytes. -/
def decodeHex32 (s : String) : Option (List Nat) :=
  if s.data.length = 64 then decodeHexBytes s.data else none

/-- Byte-lexicographic order on byte strings, matching the derived `Ord`
of the Rust array type `[u8; 32]` (the two inputs always have equal
length 32 in the code). -/
def bytesLe : List Nat → List Nat → Bool
  | [], _ => true
  | _ :: _, [] => false
  | a :: as, b :: bs => if a < b then true else if b < a then false else bytesLe as bs

/-- The pairwise node combination of the merkle fold: sort the two
32-byte digests byte-lexicographically (`hashes.sort_unstable()`),
concatenate, and hash. `H` is the `sha2::Sha256` digest function. -/
def combine (H : List Nat → List Nat) (a b : List Nat) : List Nat :=
  if bytesLe a b then H (a ++ b) else H (b ++ a)

/-- Leaf preimage: the sender address text concatenated with the decimal
amount text, no separator (`format!("{}{}", info.sender, amount)`). -/
def leafBytes (sender : String) (amount : Nat) : List Nat :=
  strBytes (sender ++ natDecimal amount)

/-- The `ContractError` enum of the contract, with the `StdError` cases
reaching the helpers folded in. Modelled from the spec section 7 and the
variants used in `helpers.rs` (`error.rs` itself is not among the given
sources): `wrongLength` for a digest of unexpected size, `hexError` for
a malformed hex proof or root (`FromHexError`), `invalidInput` for a
serialization failure, `isNotEligible` with a message for signature or
address mismatch, `stdGenericErr` for `StdError::generic_err`,
`stdVerificationErr` for `StdError::verification_err(GenericErr)`, and
`stdRecoverPubkeyErr` for a recovery failure of the host API. -/
inductive CryptoErr
  | genericErr
  | invalidHashFormat
  | invalidSignatureFormat
  | invalidRecoveryParam
  deriving DecidableEq

/-- Human-readable rendering of a host crypto API error, as
`err.to_string()` would produce. -/
def cryptoErrMsg : CryptoErr → String
  | .genericErr => "Generic error"
  | .invalidHashFormat => "Invalid hash format"
  | .invalidSignatureFormat => "Invalid signature format"
  | .invalidRecoveryParam => "Invalid recovery parameter"

inductive ContractError
  | wrongLength
  | hexError
  | invalidInput
  | isNotEligible (msg : String)
  | stdGenericErr (msg : String)
  | stdVerificationErr
  | stdRecoverPubkeyErr (e : CryptoErr)
  deriving DecidableEq

/-- The `try_fold` over the proof entries in `verify_merkle_proof`: each
entry is hex-decoded to 32 bytes (failure is a hex error) and combined
with the running digest. -/
def foldProof (H : List Nat → List Nat) (hash : List Nat) :
    List String → Except ContractError (List Nat)
  | [] => .ok hash
  | p :: rest =>
    match decodeHex32 p with
    | none => .error .hexError
    | some proof_buf => foldProof H (combine H hash proof_buf) rest

/-- `verify_merkle_proof` from `helpers.rs`: hash the sender text and
decimal amount into the leaf digest, fold the proof entries with
`combine`, decode the stored root, and succeed exactly when the folded
digest equals the decoded root; a mismatch is the hard error
`StdError::verification_err(GenericErr)`, never `Ok(false)`. The stored
root (loaded from `MERKLE_ROOT`) is the `merkle_root` argument. The
`WrongLength` branches of the Rust code guard `try_into` conversions of
SHA-256 output, which is always 32 bytes, so they are dead and not
modelled. -/
def verify_merkle_proof (H : List Nat → List Nat) (merkle_root : String)
    (sender : String) (amount : Nat) (proof : List String) :
    Except ContractError Bool :=
  let hash0 := H (leafBytes sender amount)
  match foldProof H hash0 proof with
  | .error e => .error e
  | .ok hash =>
    match decodeHex32 merkle_root with
    | none => .error .hexError
    | some root_buf =>
      if root_buf ≠ hash then .error .stdVerificationErr else .ok true

/-- The pool configuration. Modelled from the spec: the `Config` record
of `state.rs` is not among the given sources; its five fields are those
the spec lists in section 3 and exactly the ones `update_coefficient`
reads and writes. All are `Uint128` values, here naturals below
`2 ^ 128`. -/
structure Config where
  coefficient_up : Nat
  coefficient_down : Nat
  coefficient : Nat
  initial_balance : Nat
  current_balance : Nat
  deriving DecidableEq

/-- The `Uint128` modulus: values of the cosmwasm 128-bit unsigned
integer type lie strictly below it. -/
def U128_MOD : Nat := 2 ^ 128

/-- The reason a cosmwasm `Uint128` operator aborts: its `+ - * /`
implementations panic on overflow, underflow, and division by zero
instead of returning an error value. -/
inductive ArithPanic
  | overflow
  | underflow
  | divideByZero
  deriving DecidableEq

/-- `Uint128` addition: panics on overflow. -/
def uadd (a b : Nat) : Except ArithPanic Nat :=
  if a + b < U128_MOD then .ok (a + b) else .error .overflow

/-- `Uint128` subtraction: panics on underflow. -/
def usub (a b : Nat) : Except ArithPanic Nat :=
  if b ≤ a then .ok (a - b) else .error .underflow

/-- `Uint128` multiplication: panics on overflow. -/
def umul (a b : Nat) : Except ArithPanic Nat :=
  if a * b < U128_MOD then .ok (a * b) else .error .overflow

/-- `Uint128` division: panics on division by zero, truncates
otherwise. -/
def udiv (a b : Nat) : Except ArithPanic Nat :=
  if b = 0 then .error .divideByZero else .ok (a / b)

/-- Outcome of `update_coefficient`, whose Rust type is
`StdResult<()>` after the `CONFIG.save`: either the save succeeded with
the updated config, or the `StdResult` error channel carried a storage
error, or a `Uint128` operator panicked and the whole execution
aborted with no value returned at all. -/
inductive UpdateResult
  | ok (cfg : Config)
  | stdError (msg : String)
  | panicked (p : ArithPanic)
  deriving DecidableEq

/-- Chain a `Uint128` operation into an update: a panic of the
operation aborts the update. -/
def withU (x : Except ArithPanic Nat) (k : Nat → UpdateResult) : UpdateResult :=
  match x with
  | .error p => .panicked p
  | .ok n => k n

/-- `update_coefficient` from `helpers.rs`:
`coefficient_up + (coefficient_down - coefficient_up) * initial_balance / current_balance`
evaluated in `Uint128` arithmetic in Rust operand order (subtraction,
multiplication, division, addition), then
`current_balance - amount`, then one `CONFIG.save` writing the config
with both updated fields. The save itself is modelled as reliable, so
the `stdError` outcome never arises here. -/
def update_coefficient (config : Config) (amount : Nat) : UpdateResult :=
  withU (usub config.coefficient_down config.coefficient_up) fun diff =>
  withU (umul diff config.initial_balance) fun prod =>
  withU (udiv prod config.current_balance) fun quot =>
  withU (uadd config.coefficient_up quot) fun new_coefficient =>
  withU (usub config.current_balance amount) fun new_current_balance =>
  .ok { config with
        coefficient := new_coefficient,
        current_balance := new_current_balance }

/-- The persistent state the helpers touch: the `Config` record under
one storage key and the hex merkle root under another. -/
structure Storage where
  config : Config
  merkle_root : String
  deriving DecidableEq

/-- `update_coefficient` acting on storage: only a successful update
writes the new config; a panic (or an error) leaves storage exactly as
it was. -/
def update_coefficient_store (st : Storage) (amount : Nat) :
    Storage × UpdateResult :=
  match update_coefficient st.config amount with
  | .ok cfg => ({ st with config := cfg }, .ok cfg)
  | .stdError m => (st, .stdError m)
  | .panicked p => (st, .panicked p)

/-- Outcome of one claim invocation. -/
inductive ClaimOutcome
  | ok (b : Bool)
  | err (e : ContractError)
  | panicked (p : ArithPanic)
  deriving DecidableEq

/-- The claim message. Modelled from the spec: `msg.rs` is not among the
given sources; section 3 gives `gift_claiming_address` (the foreign
chain address as text) plus further claim fields, here one
representative amount field. -/
structure ClaimMsg where
  gift_claiming_address : String
  gift_amount : Nat
  deriving DecidableEq

/-- Modelled from the spec: the deterministic JSON serialization of a
claim message (`serde_json::to_string`), total on this record shape, so
the `InvalidInput` branch guarding it never fires. -/
def serializeClaimMsg (m : ClaimMsg) : String :=
  "\x7b\"gift_claiming_address\":\"" ++ m.gift_claiming_address ++
    "\",\"gift_amount\":\"" ++ natDecimal m.gift_amount ++ "\"\x7d"

/-- The personal-message payload: the fixed Ethereum prefix, the decimal
byte length of the serialized claim, then the serialized claim bytes.
Keccak-256 of this payload is the signed digest. -/
def signedMessageBytes (msg : String) : List Nat :=
  strBytes ("\x19Ethereum Signed Message:\n" ++ natDecimal (strBytes msg).length)
    ++ strBytes msg

/-- The host crypto interface (`deps.api`): public key recovery from a
digest, 64-byte signature and recovery id, and signature verification of
a digest, 64-byte signature and public key. The latter distinguishes a
malformed input (an error) from a well-formed signature that simply does
not verify (`Ok(false)`). -/
structure Api where
  secp256k1_recover_pubkey : List Nat → List Nat → Nat → Except CryptoErr (List Nat)
  secp256k1_verify : List Nat → List Nat → List Nat → Except CryptoErr Bool

/-- `signature.split_last()`: the last byte and the rest, or `none` for
the empty signature. -/
def splitLast : List Nat → Option (Nat × List Nat)
  | [] => none
  | [a] => some (a, [])
  | a :: rest =>
    match splitLast rest with
    | some (v, rs) => some (v, a :: rs)
    | none => none

/-- `get_recovery_param` from `helpers.rs`: map the recovery marker
27 to id 0 and 28 to id 1; every other value is a generic error. -/
def get_recovery_param (v : Nat) : Except ContractError Nat :=
  if v = 27 then .ok 0
  else if v = 28 then .ok 1
  else .error (.stdGenericErr "Values of v other than 27 and 28 not supported. Replay protection (EIP-155) cannot be used here.")

/-- `ethereum_address_raw` from `helpers.rs`: the public key must be
nonempty, start with the uncompressed-point tag `0x04`, and carry 64
bytes of coordinate data; the raw address is the low 20 bytes of the
Keccak-256 hash of the coordinate data. -/
def ethereum_address_raw (K : List Nat → List Nat) (pubkey : List Nat) :
    Except ContractError (List Nat) :=
  match pubkey with
  | [] => .error (.stdGenericErr "Public key must not be empty")
  | tag :: data =>
    if tag ≠ 4 then .error (.stdGenericErr "Public key must start with 0x04")
    else if data.length ≠ 64 then
      .error (.stdGenericErr "Public key must be 65 bytes long")
    else
      let hash := K data
      .ok (hash.drop (hash.length - 20))

/-- `verify_eth` from `helpers.rs`: serialize the claim, Keccak-hash the
personal-message payload, split the signature into `(v, r‖s)` (an empty
signature is an eligibility error), map `v` to a recovery id, recover
the public key through the host API, derive the Ethereum address,
compare it byte-exact with the claimed address, and finally re-verify
the signature against the recovered key, mapping only a verification
error of the host API to `IsNotEligible` — a plain `Ok(b)` of the host
API is returned as `Ok(b)` unchanged. `K` is the `sha3::Keccak256`
digest function. -/
def verify_eth (api : Api) (K : List Nat → List Nat) (claim_msg : ClaimMsg)
    (signature : List Nat) : Except ContractError Bool :=
  let msg := serializeClaimMsg claim_msg
  let hash := K (signedMessageBytes msg)
  match splitLast signature with
  | none => .error (.isNotEligible "Signature must not be empty")
  | some (v, rs) =>
    match get_recovery_param v with
    | .error e => .error e
    | .ok recovery =>
      match api.secp256k1_recover_pubkey hash rs recovery with
      | .error e => .error (.stdRecoverPubkeyErr e)
      | .ok calculated_pubkey =>
        match ethereum_address_raw K calculated_pubkey with
        | .error e => .error e
        | .ok calculated_address =>
          if strBytes claim_msg.gift_claiming_address ≠ calculated_address then
            .error (.isNotEligible "signer address is not calculated addr")
          else
            match api.secp256k1_verify hash rs calculated_pubkey with
            | .error e => .error (.isNotEligible (cryptoErrMsg e))
            | .ok b => .ok b

/-- `verify_cosmos` from `helpers.rs`: unconditionally `Ok(true)`,
inspecting neither the claim nor the signature. The unused `Deps`
handle is the same host interface record as for `verify_eth`. -/
def verify_cosmos (_deps : Api) (_claim_msg : ClaimMsg)
    (_signature : List Nat) : Except ContractError Bool :=
  .ok true

/-- Modelled from the spec: the one eligibility proof accompanying a
claim request — a merkle path, a foreign-chain (Ethereum) signature, or
a native-chain signature — selecting which verifier the dispatcher
invokes. -/
inductive GiftProof
  | merkleProof (proof : List String)
  | ethSignature (signature : List Nat)
  | cosmosSignature (signature : List Nat)

/-- Modelled from the spec: the claim entry point (the dispatcher in
`contract.rs` is not among the given sources) invokes the verifier the
supplied proof selects — `verify_merkle_proof` for a merkle path,
`verify_eth` for a foreign signature, `verify_cosmos` for a native
signature — and, only on success, applies `update_coefficient`; any
verification failure aborts the invocation before any storage write,
and a panic aborts it with storage untouched. -/
def execute_claim (H K : List Nat → List Nat) (api : Api) (st : Storage)
    (sender : String) (claim_msg : ClaimMsg) (amount : Nat)
    (proof : GiftProof) : Storage × ClaimOutcome :=
  let verdict :=
    match proof with
    | .merkleProof p => verify_merkle_proof H st.merkle_root sender amount p
    | .ethSignature sig => verify_eth api K claim_msg sig
    | .cosmosSignature sig => verify_cosmos api claim_msg sig
  match verdict with
  | .error e => (st, .err e)
  | .ok _ =>
    match update_coefficient_store st amount with
    | (st2, .ok _) => (st2, .ok true)
    | (st2, .stdError m) => (st2, .err (.stdGenericErr m))
    | (st2, .panicked p) => (st2, .panicked p)

/-- A concrete stand-in for the SHA-256 digest parameter, used when
evaluating the merkle verifier on concrete inputs: the control flow
under scrutiny is independent of the digest internals. -/
def H0 : List Nat → List Nat := fun _ => List.replicate 32 0

/-- The all-zero 64-character hex root, decoding to 32 zero bytes. -/
def zRoot : String := "0000000000000000000000000000000000000000000000000000000000000000"

/-- A concrete stand-in for the Keccak-256 digest parameter, mapping
every input to the 20 bytes of the letter a. -/
def K0 : List Nat → List Nat := fun _ => List.replicate 20 97

/-- A concrete host API whose recovery yields a fixed well-formed
uncompressed public key and whose verification reports the signature as
well-formed but invalid (`Ok(false)`). -/
def api0 : Api :=
  { secp256k1_recover_pubkey := fun _ _ _ => .ok (4 :: List.replicate 64 0),
    secp256k1_verify := fun _ _ _ => .ok false }

/-- A concrete host API whose recovery succeeds as in `api0` but whose
verification rejects the input as malformed (an error). -/
def apiErr : Api :=
  { secp256k1_recover_pubkey := fun _ _ _ => .ok (4 :: List.replicate 64 0),
    secp256k1_verify := fun _ _ _ => .error .genericErr }

/-- A concrete host API whose recovery itself fails. -/
def apiRec : Api :=
  { secp256k1_recover_pubkey := fun _ _ _ => .error .genericErr,
    secp256k1_verify := fun _ _ _ => .ok true }

/-- A claim message whose claimed address is twenty letters a, matching
the address `K0` derives for any recovered key. -/
def msg0 : ClaimMsg := ⟨"aaaaaaaaaaaaaaaaaaaa", 100⟩

/-- The byte-lexicographic order is total. -/
theorem bytesLe_total (a : List Nat) : ∀ b, bytesLe a b = true ∨ bytesLe b a = true := by
  induction a with
  | nil => intro b; left; rfl
  | cons x xs ih =>
    intro b
    cases b with
    | nil => right; rfl
    | cons y ys =>
      by_cases h1 : x < y
      · left; simp [bytesLe, h1]
      · by_cases h2 : y < x
        · right; simp [bytesLe, h2]
        · have hxy : x = y := Nat.le_antisymm (Nat.not_lt.mp h2) (Nat.not_lt.mp h1)
          subst hxy
          rcases ih ys with h | h
          · left; simp [bytesLe, h]
          · right; simp [bytesLe, h]

/-- The byte-lexicographic order is antisymmetric. -/
theorem bytesLe_antisymm : ∀ a b : List Nat, bytesLe a b = true → bytesLe b a = true → a = b := by
  intro a
  induction a with
  | nil =>
    intro b h1 h2
    cases b with
    | nil => rfl
    | cons y ys => simp [bytesLe] at h2
  | cons x xs ih =>
    intro b h1 h2
    cases b with
    | nil => simp [bytesLe] at h1
    | cons y ys =>
      by_cases hxy : x < y
      · simp [bytesLe, hxy, Nat.lt_asymm hxy] at h2
      · by_cases hyx : y < x
        · simp [bytesLe, hyx, Nat.lt_asymm hyx] at h1
        · have : x = y := Nat.le_antisymm (Nat.not_lt.mp hyx) (Nat.not_lt.mp hxy)
          subst this
          simp [bytesLe] at h1 h2
          rw [ih ys h1 h2]

/-- Sorting the pair before hashing makes `combine` symmetric, for any
digest function and any byte strings. -/
theorem combine_symm_aux (H : List Nat → List Nat) (a b : List Nat) :
    combine H a b = combine H b a := by
  unfold combine
  rcases bytesLe_total a b with h | h
  · by_cases h2 : bytesLe b a = true
    · rw [bytesLe_antisymm a b h h2]
    · simp [h, h2]
  · by_cases h2 : bytesLe a b = true
    · rw [bytesLe_antisymm a b h2 h]
    · simp [h, h2]

/-- The proof fold succeeds on well-formed entries and computes the
left fold of `combine` over the decoded bytes. -/
theorem foldProof_ok (H : List Nat → List Nat) :
    ∀ (proof : List String) (entries : List (List Nat)) (h0 : List Nat),
      proof.map decodeHex32 = entries.map some →
      foldProof H h0 proof = .ok (entries.foldl (combine H) h0) := by
  intro proof
  induction proof with
  | nil =>
    intro entries h0 hmap
    cases entries with
    | nil => rfl
    | cons e es => simp at hmap
  | cons p ps ih =>
    intro entries h0 hmap
    cases entries with
    | nil => simp at hmap
    | cons e es =>
      simp only [List.map_cons, List.cons.injEq] at hmap
      obtain ⟨h1, h2⟩ := hmap
      simp only [foldProof, h1, List.foldl_cons]
      exact ih es (combine H h0 e) h2

/-- The merkle verifier never reports `Ok(false)`. -/
theorem verify_merkle_not_false (H : List Nat → List Nat) (root sender : String)
    (amount : Nat) (proof : List String) :
    verify_merkle_proof H root sender amount proof ≠ .ok false := by
  cases hf : foldProof H (H (leafBytes sender amount)) proof with
  | error e => simp [verify_merkle_proof, hf]
  | ok hash =>
    cases hr : decodeHex32 root with
    | none => simp [verify_merkle_proof, hf, hr]
    | some rb =>
      by_cases h : rb = hash
      · simp [verify_merkle_proof, hf, hr, h]
      · simp [verify_merkle_proof, hf, hr, h]

/-- C1: with every proof entry valid 32-byte hex (decoding to
`entries`) and the stored root decoding to `rootBytes`,
`verify_merkle_proof` returns `Ok(true)` exactly when the left fold of
`combine` over the decoded entries, started from the leaf digest of the
sender and amount, equals the decoded root; on a mismatch it returns
the verification error, and on no input whatsoever does it return
`Ok(false)`. In particular, for sender abc, amount 100 and an empty
proof list it succeeds exactly when the root decodes to the leaf
digest. -/
theorem verify_merkle_proof_iff (H : List Nat → List Nat) (root sender : String)
    (amount : Nat) (proof : List String) (entries : List (List Nat))
    (rootBytes : List Nat)
    (hproof : proof.map decodeHex32 = entries.map some)
    (hroot : decodeHex32 root = some rootBytes) :
    (verify_merkle_proof H root sender amount proof = .ok true ↔
      entries.foldl (combine H) (H (leafBytes sender amount)) = rootBytes) ∧
    (entries.foldl (combine H) (H (leafBytes sender amount)) ≠ rootBytes →
      verify_merkle_proof H root sender amount proof = .error .stdVerificationErr) ∧
    (∀ (r s : String) (a : Nat) (pf : List String),
      verify_merkle_proof H r s a pf ≠ .ok false) := by
  have hfold := foldProof_ok H proof entries (H (leafBytes sender amount)) hproof
  refine ⟨?_, ?_, fun r s a pf => verify_merkle_not_false H r s a pf⟩
  · by_cases h : entries.foldl (combine H) (H (leafBytes sender amount)) = rootBytes
    · simp [verify_merkle_proof, hfold, hroot, h]
    · simp [verify_merkle_proof, hfold, hroot, h]
      intro hh
      exact absurd hh.symm h
  · intro h
    simp [verify_merkle_proof, hfold, hroot]
    intro hh
    exact absurd hh.symm h

/-- C1 witness: sender abc, amount 100, no proof entries, with the
all-zero root and a digest function sending the leaf preimage to the
zero digest: verification succeeds. -/
theorem verify_merkle_proof_iff_witness :
    verify_merkle_proof H0 zRoot "abc" 100 [] = .ok true :=
  (verify_merkle_proof_iff H0 zRoot "abc" 100 [] [] (List.replicate 32 0)
    rfl (by decide)).1.mpr rfl

/-- C7: the pairwise combination of two 32-byte digests is symmetric:
the two inputs are sorted byte-lexicographically before concatenation
and hashing, so the result does not depend on argument order. -/
theorem combine_comm (H : List Nat → List Nat) (a b : List Nat)
    (_ha : a.length = 32) (_hb : b.length = 32) :
    combine H a b = combine H b a :=
  combine_symm_aux H a b

/-- C7 witness: symmetry at two concrete 32-byte values under the
identity digest function. -/
theorem combine_comm_witness :
    combine (fun l => l) (List.replicate 32 0) (List.replicate 32 1) =
      combine (fun l => l) (List.replicate 32 1) (List.replicate 32 0) :=
  combine_comm (fun l => l) (List.replicate 32 0) (List.replicate 32 1)
    (by decide) (by decide)

/-- C2: with the coefficient bounds ordered, the intermediate products
within the `Uint128` range, a positive current balance and an amount
not exceeding it, `update_coefficient` stores exactly
`coefficient_up + (coefficient_down - coefficient_up) * initial_balance / current_balance`
in truncating natural division, computed from the current balance
before the amount is subtracted, and both updated fields in one saved
config. -/
theorem update_coefficient_formula (cfg : Config) (amount : Nat)
    (h1 : cfg.coefficient_up ≤ cfg.coefficient_down)
    (h2 : (cfg.coefficient_down - cfg.coefficient_up) * cfg.initial_balance < U128_MOD)
    (h3 : cfg.coefficient_up +
      (cfg.coefficient_down - cfg.coefficient_up) * cfg.initial_balance /
        cfg.current_balance < U128_MOD)
    (h4 : 0 < cfg.current_balance) (h5 : amount ≤ cfg.current_balance) :
    update_coefficient cfg amount = .ok { cfg with
      coefficient := cfg.coefficient_up +
        (cfg.coefficient_down - cfg.coefficient_up) * cfg.initial_balance /
          cfg.current_balance,
      current_balance := cfg.current_balance - amount } := by
  have h4' : cfg.current_balance ≠ 0 := Nat.pos_iff_ne_zero.mp h4
  simp [update_coefficient, withU, usub, umul, udiv, uadd, h1, h2, h3, h4', h5]

/-- C2 witness: at `coefficient_up = 0`, `coefficient_down = 100`,
`initial_balance = 1000`, `current_balance = 1000` and amount `0`, the
stored coefficient is exactly `100`, and applying the identical update
again reproduces the identical config. -/
theorem update_coefficient_formula_witness :
    update_coefficient ⟨0, 100, 0, 1000, 1000⟩ 0 = .ok ⟨0, 100, 100, 1000, 1000⟩ ∧
    update_coefficient ⟨0, 100, 100, 1000, 1000⟩ 0 = .ok ⟨0, 100, 100, 1000, 1000⟩ :=
  ⟨update_coefficient_formula ⟨0, 100, 0, 1000, 1000⟩ 0
      (by decide) (by decide) (by decide) (by decide) (by decide),
    update_coefficient_formula ⟨0, 100, 100, 1000, 1000⟩ 0
      (by decide) (by decide) (by decide) (by decide) (by decide)⟩

/-- C3 counterexample: at `coefficient_up = 0`, `coefficient_down = 100`,
`initial_balance = 1000`, `current_balance = 10` and amount `11`,
`update_coefficient` does not return an arithmetic error value through
its `StdResult` — the `Uint128` subtraction `current_balance - amount`
panics, aborting the execution. -/
theorem update_underflow_cex :
    update_coefficient ⟨0, 100, 0, 1000, 10⟩ 11 = .panicked .underflow := by
  decide

/-- C3 amended: for an amount exceeding the current balance (with the
coefficient computation itself in range), the update aborts with an
underflow panic of the `current_balance - amount` subtraction — a Rust
panic, not a returned `ArithmeticError` — and the stored config is left
exactly as it was. -/
theorem update_underflow_panics (st : Storage) (amount : Nat)
    (h1 : st.config.coefficient_up ≤ st.config.coefficient_down)
    (h2 : (st.config.coefficient_down - st.config.coefficient_up) *
      st.config.initial_balance < U128_MOD)
    (h3 : st.config.coefficient_up +
      (st.config.coefficient_down - st.config.coefficient_up) *
        st.config.initial_balance / st.config.current_balance < U128_MOD)
    (h4 : 0 < st.config.current_balance)
    (h5 : st.config.current_balance < amount) :
    update_coefficient_store st amount = (st, .panicked .underflow) := by
  have h4' : st.config.current_balance ≠ 0 := Nat.pos_iff_ne_zero.mp h4
  have h5' : ¬ (amount ≤ st.config.current_balance) := Nat.not_le.mpr h5
  simp [update_coefficient_store, update_coefficient, withU, usub, umul, udiv,
    uadd, h1, h2, h3, h4', h5']

/-- C3 witness: at current balance 10 and amount 11 the update panics
with underflow and the storage is unchanged. -/
theorem update_underflow_panics_witness :
    update_coefficient_store ⟨⟨0, 100, 0, 1000, 10⟩, zRoot⟩ 11 =
      (⟨⟨0, 100, 0, 1000, 10⟩, zRoot⟩, .panicked .underflow) :=
  update_underflow_panics ⟨⟨0, 100, 0, 1000, 10⟩, zRoot⟩ 11
    (by decide) (by decide) (by decide) (by decide) (by decide)

/-- C4 counterexample: at `current_balance = 0` the division panics —
`update_coefficient` aborts rather than returning an arithmetic error
value. -/
theorem update_divzero_cex :
    update_coefficient ⟨0, 100, 0, 1000, 0⟩ 5 = .panicked .divideByZero := by
  decide

/-- C4 amended: with a zero current balance (and the preceding
subtraction and multiplication in range), the update aborts with a
division-by-zero panic — a Rust panic, not a returned
`ArithmeticError` — leaving storage untouched and never silently
producing a zero coefficient; the `Uint128` division itself succeeds
on every nonzero divisor. -/
theorem update_divzero_panics (st : Storage) (amount : Nat)
    (h1 : st.config.coefficient_up ≤ st.config.coefficient_down)
    (h2 : (st.config.coefficient_down - st.config.coefficient_up) *
      st.config.initial_balance < U128_MOD)
    (h0 : st.config.current_balance = 0) :
    update_coefficient_store st amount = (st, .panicked .divideByZero) ∧
    (∀ x b : Nat, b ≠ 0 → udiv x b = .ok (x / b)) := by
  constructor
  · simp [update_coefficient_store, update_coefficient, withU, usub, umul,
      udiv, uadd, h1, h2, h0]
  · intro x b hb
    simp [udiv, hb]

/-- C4 witness: at current balance 0 the update panics with division by
zero and the storage is unchanged. -/
theorem update_divzero_panics_witness :
    update_coefficient_store ⟨⟨0, 100, 0, 1000, 0⟩, zRoot⟩ 5 =
      (⟨⟨0, 100, 0, 1000, 0⟩, zRoot⟩, .panicked .divideByZero) :=
  (update_divzero_panics ⟨⟨0, 100, 0, 1000, 0⟩, zRoot⟩ 5
    (by decide) (by decide) (by decide)).1

/-- Splitting off the last byte of a nonempty byte string. -/
theorem splitLast_append (v : Nat) : ∀ rs : List Nat, splitLast (rs ++ [v]) = some (v, rs) := by
  intro rs
  induction rs with
  | nil => rfl
  | cons a as ih =>
    cases as with
    | nil => simp [splitLast] at ih ⊢
    | cons b bs =>
      simp only [List.cons_append] at ih ⊢
      simp [splitLast, ih]

/-- C5 counterexample: with a host API whose recovery yields a key whose
derived address matches the claim and whose verification reports the
signature as well-formed but invalid (`Ok(false)`), `verify_eth` does
not fail with an eligibility error — it returns the non-error boolean
`Ok(false)`. -/
theorem verify_eth_ok_false_cex :
    api0.secp256k1_verify
        (K0 (signedMessageBytes (serializeClaimMsg msg0))) [] (4 :: List.replicate 64 0) = .ok false ∧
    verify_eth api0 K0 msg0 [27] = .ok false :=
  ⟨rfl, rfl⟩

/-- C5 amended: once the signature splits, the recovery id maps, the key
recovers and the derived address matches the claimed address, the final
secp256k1 re-verification determines the outcome as follows: an error of
the primitive (a malformed input that recovery tolerated) becomes an
`IsNotEligible` error carrying its message, while a plain boolean answer
of the primitive — including `false` for a well-formed but invalid
signature — is passed through unchanged as `Ok(b)`. -/
theorem verify_eth_secp_outcome (api : Api) (K : List Nat → List Nat)
    (cm : ClaimMsg) (sig rs : List Nat) (v rec : Nat) (pubkey addr : List Nat)
    (hsplit : splitLast sig = some (v, rs))
    (hrec : get_recovery_param v = .ok rec)
    (hrecover : api.secp256k1_recover_pubkey
      (K (signedMessageBytes (serializeClaimMsg cm))) rs rec = .ok pubkey)
    (haddr : ethereum_address_raw K pubkey = .ok addr)
    (hmatch : strBytes cm.gift_claiming_address = addr) :
    (∀ e, api.secp256k1_verify
        (K (signedMessageBytes (serializeClaimMsg cm))) rs pubkey = .error e →
      verify_eth api K cm sig = .error (.isNotEligible (cryptoErrMsg e))) ∧
    (∀ b, api.secp256k1_verify
        (K (signedMessageBytes (serializeClaimMsg cm))) rs pubkey = .ok b →
      verify_eth api K cm sig = .ok b) := by
  constructor <;> intro x hx <;>
    simp [verify_eth, hsplit, hrec, hrecover, haddr, hmatch, hx]

/-- C5 witness: with a host API whose re-verification rejects the input
as malformed, `verify_eth` fails with the eligibility error carrying the
rendered message. -/
theorem verify_eth_secp_outcome_witness :
    verify_eth apiErr K0 msg0 [27] = .error (.isNotEligible "Generic error") :=
  (verify_eth_secp_outcome apiErr K0 msg0 [27] [] 27 0
    (4 :: List.replicate 64 0) (List.replicate 20 97)
    rfl rfl rfl rfl rfl).1 .genericErr rfl

/-- C6: the recovery marker 27 maps to id 0 and 28 to id 1, and for a
signature whose last byte is any other value `verify_eth` returns the
fixed generic error — the same outcome for every host API, so no
cryptographic recovery primitive is ever consulted. -/
theorem recovery_param_gate (api api2 : Api) (K : List Nat → List Nat)
    (cm : ClaimMsg) (sig rs : List Nat) (v : Nat)
    (hsig : sig = rs ++ [v]) (h27 : v ≠ 27) (h28 : v ≠ 28) :
    get_recovery_param 27 = .ok 0 ∧ get_recovery_param 28 = .ok 1 ∧
    verify_eth api K cm sig = .error (.stdGenericErr
      "Values of v other than 27 and 28 not supported. Replay protection (EIP-155) cannot be used here.") ∧
    verify_eth api K cm sig = verify_eth api2 K cm sig := by
  subst hsig
  refine ⟨rfl, rfl, ?_, ?_⟩ <;>
    simp [verify_eth, splitLast_append, get_recovery_param, h27, h28]

/-- C6 witness: the signature `[1, 2, 29]` fails with the fixed error. -/
theorem recovery_param_gate_witness :
    verify_eth api0 K0 msg0 [1, 2, 29] = .error (.stdGenericErr
      "Values of v other than 27 and 28 not supported. Replay protection (EIP-155) cannot be used here.") :=
  (recovery_param_gate api0 apiRec K0 msg0 [1, 2, 29] [1, 2] 29
    rfl (by decide) (by decide)).2.2.1

/-- C9: `verify_cosmos` returns `Ok(true)` for every host interface,
claim message and signature, empty or malformed ones included, without
inspecting any of them. -/
theorem verify_cosmos_unconditional (deps : Api) (cm : ClaimMsg) (sig : List Nat) :
    verify_cosmos deps cm sig = .ok true :=
  rfl

/-- C10: for the empty signature `verify_eth` fails with the
`IsNotEligible` error carrying the message Signature must not be empty,
identically for every host API and digest function — so before any
recovery-id mapping or cryptographic call — and without aborting; and
no 65-byte format check precedes key recovery: on the one-byte
signature `[27]` two host APIs that differ only in recovery give
different outcomes, so recovery is attempted on a signature that is not
65 bytes long. -/
theorem empty_signature_gate (api api2 : Api) (K K2 : List Nat → List Nat)
    (cm cm2 : ClaimMsg) :
    verify_eth api K cm [] = .error (.isNotEligible "Signature must not be empty") ∧
    verify_eth api K cm [] = verify_eth api2 K2 cm2 [] ∧
    verify_eth api0 K0 msg0 [27] ≠ verify_eth apiRec K0 msg0 [27] ∧
    ([27] : List Nat).length ≠ 65 := by
  refine ⟨rfl, rfl, ?_, by decide⟩
  intro h
  have h1 : verify_eth api0 K0 msg0 [27] = .ok false := rfl
  have h2 : verify_eth apiRec K0 msg0 [27] = .error (.stdRecoverPubkeyErr .genericErr) := rfl
  rw [h1, h2] at h
  exact Except.noConfusion h

/-- C8: within one claim invocation, a failure of either verifier — a
merkle verification error on a merkle-path proof, or a `verify_eth`
error on a signature proof — returns the error with the storage exactly
as it was; a panic of the coefficient update likewise leaves the
storage exactly as it was; and a successful invocation performs
precisely the single config write of `update_coefficient`, whose saved
record carries the new coefficient and the new current balance
together. -/
theorem execute_claim_atomic (H K : List Nat → List Nat) (api : Api)
    (st : Storage) (sender : String) (cm : ClaimMsg) (amount : Nat)
    (proof : GiftProof) :
    (∀ e p, verify_merkle_proof H st.merkle_root sender amount p = .error e →
      execute_claim H K api st sender cm amount (.merkleProof p) = (st, .err e)) ∧
    (∀ e sig, verify_eth api K cm sig = .error e →
      execute_claim H K api st sender cm amount (.ethSignature sig) = (st, .err e)) ∧
    (∀ p, update_coefficient st.config amount = .panicked p →
      (execute_claim H K api st sender cm amount proof).1 = st) ∧
    (∀ st2 b, execute_claim H K api st sender cm amount proof = (st2, .ok b) →
      ∃ cfg, update_coefficient st.config amount = .ok cfg ∧
        st2 = { st with config := cfg } ∧ b = true) := by
  refine ⟨?_, ?_, ?_, ?_⟩
  · intro e p he
    simp [execute_claim, he]
  · intro e sig he
    simp [execute_claim, he]
  · intro p hp
    cases proof with
    | merkleProof pf =>
      cases hv : verify_merkle_proof H st.merkle_root sender amount pf with
      | error e => simp [execute_claim, hv]
      | ok b0 => simp [execute_claim, hv, update_coefficient_store, hp]
    | ethSignature sig =>
      cases hv : verify_eth api K cm sig with
      | error e => simp [execute_claim, hv]
      | ok b0 => simp [execute_claim, hv, update_coefficient_store, hp]
    | cosmosSignature sig =>
      simp [execute_claim, verify_cosmos, update_coefficient_store, hp]
  · intro st2 b h
    cases proof with
    | merkleProof pf =>
      cases hv : verify_merkle_proof H st.merkle_root sender amount pf with
      | error e => simp [execute_claim, hv] at h
      | ok b0 =>
        cases hu : update_coefficient st.config amount with
        | ok cfg =>
          simp [execute_claim, hv, update_coefficient_store, hu] at h
          exact ⟨cfg, rfl, h.1.symm, h.2⟩
        | stdError m => simp [execute_claim, hv, update_coefficient_store, hu] at h
        | panicked q => simp [execute_claim, hv, update_coefficient_store, hu] at h
    | ethSignature sig =>
      cases hv : verify_eth api K cm sig with
      | error e => simp [execute_claim, hv] at h
      | ok b0 =>
        cases hu : update_coefficient st.config amount with
        | ok cfg =>
          simp [execute_claim, hv, update_coefficient_store, hu] at h
          exact ⟨cfg, rfl, h.1.symm, h.2⟩
        | stdError m => simp [execute_claim, hv, update_coefficient_store, hu] at h
        | panicked q => simp [execute_claim, hv, update_coefficient_store, hu] at h
    | cosmosSignature sig =>
      have hv : verify_cosmos api cm sig = .ok true := rfl
      cases hu : update_coefficient st.config amount with
      | ok cfg =>
        simp [execute_claim, hv, update_coefficient_store, hu] at h
        exact ⟨cfg, rfl, h.1.symm, h.2⟩
      | stdError m =>
        simp [execute_claim, hv, update_coefficient_store, hu] at h
      | panicked q =>
        simp [execute_claim, hv, update_coefficient_store, hu] at h

/-- C8 witness: with a malformed stored root the merkle-path invocation
fails with the hex error and the storage is exactly the initial one,
and with an empty signature the signature invocation fails with the
eligibility error and the storage is again exactly the initial one. -/
theorem execute_claim_atomic_witness :
    execute_claim H0 K0 api0 ⟨⟨0, 100, 0, 1000, 1000⟩, "zz"⟩ "abc" msg0 100
        (.merkleProof []) =
      (⟨⟨0, 100, 0, 1000, 1000⟩, "zz"⟩, .err .hexError) ∧
    execute_claim H0 K0 api0 ⟨⟨0, 100, 0, 1000, 1000⟩, "zz"⟩ "abc" msg0 100
        (.ethSignature []) =
      (⟨⟨0, 100, 0, 1000, 1000⟩, "zz"⟩,
        .err (.isNotEligible "Signature must not be empty")) :=
  ⟨(execute_claim_atomic H0 K0 api0 ⟨⟨0, 100, 0, 1000, 1000⟩, "zz"⟩ "abc" msg0
      100 (.merkleProof [])).1 .hexError [] rfl,
   (execute_claim_atomic H0 K0 api0 ⟨⟨0, 100, 0, 1000, 1000⟩, "zz"⟩ "abc" msg0
      100 (.ethSignature [])).2.1 (.isNotEligible "Signature must not be empty") [] rfl⟩
